import Mathlib

/-!
Verification of the wikitext-to-HTML converter in
`src/extraction/wikidump_to_html.py` against its specification.

The converter is embedded shallowly: each Python helper becomes a Lean
function of the same name, operating on `String` / `List Char`.  The
embedding models the converter's HTML output mode (`mode='html'`, the
default); the Markdown-only branches of the source are outside the scope
of the claims checked here.  Conventions used throughout:

* Python `str` is `String`; character scanning happens on `String.data`
  (`List Char`).  Only the ASCII fragment of Unicode behaviour is relevant
  to the properties below; `unicodedata.normalize("NFKD", s).encode("ascii",
  "ignore")` is modelled as dropping non-ASCII code points (exact on ASCII
  input, which is all the concrete inputs use).
* Python regexes are hand-compiled into deterministic scanners whose
  behaviour on every input coincides with `re`'s leftmost,
  greedy/lazy-with-backtracking semantics for the specific patterns of the
  source (each scanner's doc comment names its pattern).
* Python `while` loops over a growing candidate set are written with
  explicit fuel that provably exceeds the number of iterations possible.
* Python float arithmetic appears in two places: `int(0.6 * len(rows))`
  (table classification) and `int(600 * 0.37 * scale)` / `int(w * 3 / 4)`
  (file sizing).  `0.6 * n` rounds to a double strictly between
  `3n/5 - 1/5` and `3n/5 + 1/5` for every feasible row count, so
  `int(0.6 * n) = 3 * n / 5` (Nat division); `600 * 0.37` rounds to exactly
  `222.0`, and `w * 3 / 4` is exact for every clamped width, so these are
  modelled as exact rational/Nat arithmetic.
-/

set_option maxRecDepth 40000

/-- Python `str.strip()` whitespace: the six ASCII whitespace characters. -/
def isPySpace (c : Char) : Bool :=
  c = ' ' || c = '\t' || c = '\n' || c = '\r' || c = '\x0b' || c = '\x0c'

/-- Drop the longest run of characters satisfying `p` from the front. -/
def lstripList (p : Char → Bool) : List Char → List Char
  | [] => []
  | c :: cs => if p c then lstripList p cs else c :: cs

/-- Drop the longest run of characters satisfying `p` from the back. -/
def rstripList (p : Char → Bool) (cs : List Char) : List Char :=
  (lstripList p cs.reverse).reverse

/-- Python `s.strip()`. -/
def pyStrip (s : String) : String :=
  ⟨rstripList isPySpace (lstripList isPySpace s.data)⟩

/-- Python `s.lstrip()`. -/
def pyLstrip (s : String) : String := ⟨lstripList isPySpace s.data⟩

/-- Python `s.rstrip()`. -/
def pyRstrip (s : String) : String := ⟨rstripList isPySpace s.data⟩

/-- Python `s.strip(chars)` for an explicit character set. -/
def stripSet (chars : List Char) (s : String) : String :=
  ⟨rstripList (fun c => chars.contains c) (lstripList (fun c => chars.contains c) s.data)⟩

/-- Python `s.rstrip("\n")` (the per-line cleanup in `convert`). -/
def pyRstripNl (s : String) : String := ⟨rstripList (fun c => c = '\n') s.data⟩

/-- Python `s.lower()` (ASCII case mapping, all the inputs used here). -/
def pyLower (s : String) : String := ⟨s.data.map Char.toLower⟩

/-- Python `s.startswith(pre)`. -/
def startsWithS (pre s : String) : Bool := pre.data.isPrefixOf s.data

/-- Substring test on character lists (Python `needle in hay`). -/
def containsSub (needle : List Char) : List Char → Bool
  | [] => needle.isEmpty
  | c :: t => needle.isPrefixOf (c :: t) || containsSub needle t

/-- Python `needle in hay` on strings. -/
def containsS (needle hay : String) : Bool := containsSub needle.data hay.data

/-- Case-insensitive substring test (`needle` given in lowercase). -/
def containsCI (needle : String) (hay : List Char) : Bool :=
  containsSub needle.data (hay.map Char.toLower)

/-- Case-insensitively drop the pattern `pat` from the front of `cs`
(`none` when `cs` does not start with `pat`).  This is how every
`re.IGNORECASE` literal of the source is matched. -/
def dropCI : List Char → List Char → Option (List Char)
  | [], rest => some rest
  | _ :: _, [] => none
  | p :: ps, c :: cs => if c.toLower = p.toLower then dropCI ps cs else none

/-- Python `html.escape` on one character (`quote=True`, the default). -/
def escapeChar (c : Char) : String :=
  if c = '&' then "&amp;"
  else if c = '<' then "&lt;"
  else if c = '>' then "&gt;"
  else if c = '"' then "&quot;"
  else if c = '\'' then "&#x27;"
  else String.singleton c

/-- Python `html.escape(s)` as used throughout the source. -/
def escape (s : String) : String := String.join (s.data.map escapeChar)

/-- Model of `unicodedata.normalize("NFKD", s).encode("ascii", "ignore")
.decode("ascii")`: non-ASCII code points are dropped.  Exact for ASCII
input; NFKD decomposition of accented letters is not modelled (no claim
uses a non-ASCII input). -/
def asciiIgnore (s : String) : String := ⟨s.data.filter (fun c => c.toNat < 128)⟩

/-- Membership of the class `[a-z0-9]` (the complement of `_slug_strip_re`). -/
def isSlugChar (c : Char) : Bool := ('a' ≤ c && c ≤ 'z') || ('0' ≤ c && c ≤ '9')

/-- One pass of `_slug_strip_re.sub("-", s)`: every maximal run of
characters outside `[a-z0-9]` becomes a single hyphen.  The flag records
whether the scanner is inside such a run. -/
def slugStripGo : Bool → List Char → List Char
  | _, [] => []
  | inRun, c :: cs =>
    if isSlugChar c then c :: slugStripGo false cs
    else if inRun then slugStripGo true cs
    else '-' :: slugStripGo true cs

/-- `_slug_strip_re.sub("-", s)` on a string. -/
def slugStripSub (s : String) : String := ⟨slugStripGo false s.data⟩

/-- The slug candidate `_slug_strip_re.sub("-", lowered).strip("-") or "page"`
computed by `slugify` before collision avoidance. -/
def slugify_base (title : String) : String :=
  let s := stripSet ['-'] (slugStripSub (pyLower (asciiIgnore title)))
  if s = "" then "page" else s

/-- The `while slug in used` suffix loop shared by `slugify` and the
category-file collision loop in `build_pages`: try `base`, `base-2`,
`base-3`, … until a candidate is free.  `fuel` bounds the iterations; the
callers pass `used.length + 1`, which the loop can never exhaust because
the candidates are pairwise distinct. -/
def slugAvoid (base : String) : String → List String → Nat → Nat → String
  | slug, _, _, 0 => slug
  | slug, used, i, fuel + 1 =>
    if slug ∈ used then slugAvoid base (base ++ "-" ++ toString i) used (i + 1) fuel
    else slug

/-- `slugify(title, used)` of the source: derive the candidate, avoid
collisions with `used`, and return the chosen slug together with the
updated used-set (Python mutates `used`; the embedding returns it). -/
def slugify (title : String) (used : List String) : String × List String :=
  let base := slugify_base title
  let slug := slugAvoid base base used 2 (used.length + 1)
  (slug, slug :: used)

/-- `category_slug(name)` of the source: same derivation with a
`category-` namespace and no used-set check of any kind. -/
def category_slug (name : String) : String :=
  let core := stripSet ['-'] (slugStripSub (pyLower (asciiIgnore name)))
  "category-" ++ (if core = "" then "category" else core)

/-- The category file-name collision loop of `build_pages` (lines
897-903): suffix `-2`, `-3`, … while the name is in `used_slugs`.  Note
the source never adds the final name back into `used_slugs`. -/
def category_file_slug (cat : String) (used : List String) : String :=
  let cslug := category_slug cat
  slugAvoid cslug cslug used 2 (used.length + 1)

/-- Python `s.replace(old, new)` for a non-empty `old`: leftmost,
non-overlapping occurrences.  (`String.replace` itself does not reduce in
the kernel, so the scanner is spelled out; `fuel` starts above the input
length and every step consumes at least one character.) -/
def replaceGo (old new : List Char) : Nat → List Char → List Char
  | 0, cs => cs
  | _ + 1, [] => []
  | fuel + 1, c :: rest =>
    if old.isPrefixOf (c :: rest) then
      new ++ replaceGo old new fuel ((c :: rest).drop old.length)
    else c :: replaceGo old new fuel rest

/-- Python `s.replace(old, new)` on strings (`old` non-empty). -/
def pyReplace (s old new : String) : String :=
  ⟨replaceGo old.data new.data (s.data.length + 1) s.data⟩

/-- Python `s[:1].upper() + s[1:]` (first character upper-cased). -/
def capFirst (s : String) : String :=
  match s.data with
  | [] => ""
  | c :: cs => ⟨c.toUpper :: cs⟩

/-- `normalize_title` of the source: underscores to spaces, trim, then
capitalize the first letter (after the namespace prefix when a colon is
present). -/
def normalize_title (title : String) : String :=
  let t := pyStrip (pyReplace title "_" " ")
  if t = "" then t
  else if t.data.contains ':' then
    let ns : String := ⟨t.data.takeWhile (fun c => c ≠ ':')⟩
    let rest : String := ⟨(t.data.dropWhile (fun c => c ≠ ':')).tail⟩
    ns ++ ":" ++ capFirst rest
  else capFirst t

/-- `heading_id(text)` of the source. -/
def heading_id (text : String) : String :=
  let base := stripSet ['-'] (slugStripSub (pyLower (asciiIgnore text)))
  if base = "" then "section" else base

/-- Match `CATEGORY_LINK_RE` = `\[\[Category:([^|\]]+)(?:\|[^\]]*)?]]`
(IGNORECASE) at the start of `cs`; on success return the captured name and
the rest of the input after the match. -/
def categoryMatchAt (cs : List Char) : Option (String × List Char) :=
  match dropCI "[[category:".data cs with
  | none => none
  | some rest =>
    let name := rest.takeWhile (fun c => c ≠ '|' && c ≠ ']')
    if name.isEmpty then none
    else
      match rest.dropWhile (fun c => c ≠ '|' && c ≠ ']') with
      | ']' :: ']' :: tail => some (⟨name⟩, tail)
      | '|' :: r3 =>
        match r3.dropWhile (fun c => c ≠ ']') with
        | ']' :: ']' :: tail => some (⟨name⟩, tail)
        | _ => none
      | _ => none

/-- The `strip_categories` scanner of `convert`: `CATEGORY_LINK_RE.sub`
with the recording side effect.  State is `(catSet, categories)` (the
source's `cat_set` set and insertion-ordered `categories` list); each match
is replaced by the empty string and its stripped name recorded if new. -/
def stripCatsGo : Nat → List Char → List String → List String →
    List Char × List String × List String
  | 0, cs, catSet, cats => (cs, catSet, cats)
  | _ + 1, [], catSet, cats => ([], catSet, cats)
  | fuel + 1, c :: rest, catSet, cats =>
    match categoryMatchAt (c :: rest) with
    | some (name, tail) =>
      let cat := pyStrip name
      if cat ∈ catSet then stripCatsGo fuel tail catSet cats
      else stripCatsGo fuel tail (cat :: catSet) (cats ++ [cat])
    | none =>
      let (res, s, k) := stripCatsGo fuel rest catSet cats
      (c :: res, s, k)

/-- `strip_categories(line)` of the source, with its two accumulators made
explicit. -/
def strip_categories (line : String) (catSet cats : List String) :
    String × List String × List String :=
  let (res, s, k) := stripCatsGo (line.data.length + 1) line.data catSet cats
  (⟨res⟩, s, k)

/-- Match `TEMPLATE_RE` = `{{[^{}]*}}` at the start of `cs`; on success
return the rest of the input after the match. -/
def templateMatchAt (cs : List Char) : Option (List Char) :=
  match cs with
  | '{' :: '{' :: rest =>
    match rest.dropWhile (fun c => c ≠ '{' && c ≠ '}') with
    | '}' :: '}' :: tail => some tail
    | _ => none
  | _ => none

/-- One `TEMPLATE_RE.sub("", text)` pass (leftmost, non-overlapping). -/
def templateSubGo : Nat → List Char → List Char
  | 0, cs => cs
  | _ + 1, [] => []
  | fuel + 1, c :: rest =>
    match templateMatchAt (c :: rest) with
    | some tail => templateSubGo fuel tail
    | none => c :: templateSubGo fuel rest

/-- The bounded template-stripping loop of `convert` (`for _ in range(10)`:
substitute, stop early when a pass changes nothing). -/
def templateStripLoop : Nat → String → String
  | 0, t => t
  | k + 1, t =>
    let t' : String := ⟨templateSubGo (t.data.length + 1) t.data⟩
    if t' = t then t else templateStripLoop k t'

/-- Match the redirect directive `^\s*#redirect\s*:?\[\[([^\]]+)]]`
(IGNORECASE, `re.match` so anchored at the start); return the raw target. -/
def redirectMatch (text : String) : Option String :=
  match dropCI "#redirect".data (lstripList isPySpace text.data) with
  | none => none
  | some r1 =>
    let r2 := lstripList isPySpace r1
    let r3 := if r2.head? = some ':' then r2.tail else r2
    match r3 with
    | '[' :: '[' :: r4 =>
      let tgt := r4.takeWhile (fun c => c ≠ ']')
      if tgt.isEmpty then none
      else
        match r4.dropWhile (fun c => c ≠ ']') with
        | ']' :: ']' :: _ => some ⟨tgt⟩
        | _ => none
    | _ => none

/-- Match `HEADING_RE` = `^(=+)([^=].*?)(=+)\s*$`.  With the trailing
whitespace removed, group 1 is the leading `=` run, group 3 the trailing
`=` run, and the lazy group 2 is everything between (its first character is
not `=` because group 1 is maximal).  Returns `(len(group 1), group 2)`. -/
def headingMatch (line : String) : Option (Nat × String) :=
  let t := rstripList isPySpace line.data
  let k := (t.takeWhile (fun c => c = '=')).length
  if k = 0 then none
  else
    let rest := t.dropWhile (fun c => c = '=')
    let m := (rest.reverse.takeWhile (fun c => c = '=')).length
    if m = 0 then none
    else some (k, ⟨(rest.reverse.dropWhile (fun c => c = '=')).reverse⟩)

/-- Match `LIST_ITEM_RE` = `^([*#]+)\s*(.*)`: the marker run and the body
after optional whitespace. -/
def listItemMatch (line : String) : Option (String × String) :=
  let markers := line.data.takeWhile (fun c => c = '*' || c = '#')
  if markers.isEmpty then none
  else some (⟨markers⟩,
    ⟨lstripList isPySpace (line.data.dropWhile (fun c => c = '*' || c = '#'))⟩)

/-- Inner scan for `COLLAPSIBLE_OPEN_RE` after a `<div` has matched: look
for `class=` reachable over non-`>` characters, then a quote, a quote-free
run containing `collapsible` (case-insensitively), a closing quote, and a
later `>`.  The regex's backtracking collapses to this existence check
because the search result is only used as a boolean. -/
def classAttrScan : Nat → List Char → Bool
  | 0, _ => false
  | fuel + 1, cs =>
    (match dropCI "class=".data cs with
     | some (q :: r2) =>
       if q = '"' || q = '\'' then
         let run := r2.takeWhile (fun c => c ≠ '"' && c ≠ '\'')
         containsCI "collapsible" run &&
           (match r2.dropWhile (fun c => c ≠ '"' && c ≠ '\'') with
            | _ :: r3 => r3.contains '>'
            | [] => false)
       else false
     | _ => false) ||
    (match cs with
     | [] => false
     | c :: rest => if c = '>' then false else classAttrScan fuel rest)

/-- `COLLAPSIBLE_OPEN_RE.search(line)` as a boolean:
`<div[^>]*class=["\'][^"\']*collapsible[^"\']*["\'][^>]*>` (IGNORECASE). -/
def collapsibleSearchGo : Nat → List Char → Bool
  | 0, _ => false
  | fuel + 1, cs =>
    (match dropCI "<div".data cs with
     | some rest => classAttrScan (rest.length + 1) rest
     | none => false) ||
    (match cs with
     | [] => false
     | _ :: rest => collapsibleSearchGo fuel rest)

/-- Whether a line opens a collapsible container run. -/
def collapsibleOpen (line : String) : Bool :=
  collapsibleSearchGo (line.data.length + 1) line.data

/-- The tag alternation `(strong|b|h[1-6])` of the collapsible header
pattern, tried in the regex's order at the current position
(case-insensitively); returns the tag text for the backreference and the
rest of the input. -/
def tagNameAt (cs : List Char) : Option (String × List Char) :=
  match dropCI "strong".data cs with
  | some r => some ("strong", r)
  | none =>
    match dropCI "b".data cs with
    | some r => some ("b", r)
    | none =>
      match cs with
      | c :: d :: r =>
        if c.toLower = 'h' && ('1' ≤ d && d ≤ '6') then some (⟨['h', d]⟩, r)
        else none
      | _ => none

/-- Lazy scan for the closing tag `</tag>` (case-insensitive): the
captured content is everything up to the first occurrence, failing on a
newline (the pattern's `.` does not cross lines). -/
def closeTagScan (tag : String) : Nat → List Char → Option (List Char)
  | 0, _ => none
  | fuel + 1, cs =>
    match dropCI ("</" ++ tag ++ ">").data cs with
    | some _ => some []
    | none =>
      match cs with
      | [] => none
      | c :: rest =>
        if c = '\n' then none
        else (closeTagScan tag fuel rest).map (fun content => c :: content)

/-- `re.search(r"<(strong|b|h[1-6])[^>]*>(.*?)</\1>", block, re.IGNORECASE)`,
returning group 2 (all `convert` uses). -/
def headerSearchGo : Nat → List Char → Option String
  | 0, _ => none
  | fuel + 1, cs =>
    (match cs with
     | '<' :: rest =>
       match tagNameAt rest with
       | some (tag, r1) =>
         (match r1.dropWhile (fun c => c ≠ '>') with
          | '>' :: r3 => (closeTagScan tag (r3.length + 1) r3).map (fun c => (⟨c⟩ : String))
          | _ => none)
       | none => none
     | _ => none) <|>
    (match cs with
     | [] => none
     | _ :: rest => headerSearchGo fuel rest)

/-- The header search over a whole collapsible block. -/
def headerSearch (block : String) : Option String :=
  headerSearchGo (block.data.length + 1) block.data

/-- `re.sub(r"^<div[^>]*>", "", block, flags=re.IGNORECASE)` (anchored, so
at most one replacement, at the very start). -/
def stripLeadingDiv (cs : List Char) : List Char :=
  match dropCI "<div".data cs with
  | some r1 =>
    match r1.dropWhile (fun c => c ≠ '>') with
    | '>' :: rest => rest
    | _ => cs
  | none => cs

/-- `re.sub(r"</div>\s*$", "", block, flags=re.IGNORECASE)`: remove the
leftmost `</div>` that is followed only by whitespace, together with that
whitespace. -/
def stripTrailingDivGo : Nat → List Char → List Char
  | 0, cs => cs
  | _ + 1, [] => []
  | fuel + 1, c :: rest =>
    match dropCI "</div>".data (c :: rest) with
    | some r1 =>
      if r1.all isPySpace then [] else c :: stripTrailingDivGo fuel rest
    | none => c :: stripTrailingDivGo fuel rest

/-- The trailing-div strip on a whole block. -/
def stripTrailingDiv (cs : List Char) : List Char :=
  stripTrailingDivGo (cs.length + 1) cs

/-- Python `s[n:]` on strings. -/
def strDrop (n : Nat) (s : String) : String := ⟨s.data.drop n⟩

/-- Python `s.split(d)` for a non-empty separator `d` (all occurrences,
leftmost, non-overlapping). -/
def splitOnGo (d : List Char) : Nat → List Char → List (List Char)
  | 0, cs => [cs]
  | _ + 1, [] => [[]]
  | fuel + 1, c :: rest =>
    if d.isPrefixOf (c :: rest) then
      [] :: splitOnGo d fuel ((c :: rest).drop d.length)
    else
      match splitOnGo d fuel rest with
      | h :: t => (c :: h) :: t
      | [] => [[c]]

/-- Python `s.split(d)` on strings. -/
def splitAllOn (d s : String) : List String :=
  (splitOnGo d.data (s.data.length + 1) s.data).map (fun cs => (⟨cs⟩ : String))

/-- Python `s.split(d, 1)[1]` when `d` occurs (everything after the first
occurrence), else `s` itself. -/
def afterFirst (d s : String) : String :=
  match splitAllOn d s with
  | _ :: rest :: more => String.intercalate d (rest :: more)
  | _ => s

/-- One byte of a UTF-8 encoding, percent-encoded with uppercase hex
digits (as `urllib.parse.quote` does). -/
def percentByte (b : Nat) : String :=
  let hexDigit := fun (n : Nat) =>
    if n < 10 then Char.ofNat ('0'.toNat + n) else Char.ofNat ('A'.toNat + n - 10)
  ⟨['%', hexDigit (b / 16), hexDigit (b % 16)]⟩

/-- The UTF-8 bytes of one code point. -/
def utf8Bytes (n : Nat) : List Nat :=
  if n < 128 then [n]
  else if n < 2048 then [192 + n / 64, 128 + n % 64]
  else if n < 65536 then [224 + n / 4096, 128 + n / 64 % 64, 128 + n % 64]
  else [240 + n / 262144, 128 + n / 4096 % 64, 128 + n / 64 % 64, 128 + n % 64]

/-- `urllib.parse.quote`'s unreserved set with the default `safe='/'`:
ASCII letters, digits, `_.-~` and `/`. -/
def quoteSafe (c : Char) : Bool :=
  ('a' ≤ c && c ≤ 'z') || ('A' ≤ c && c ≤ 'Z') || ('0' ≤ c && c ≤ '9') ||
    c = '_' || c = '.' || c = '-' || c = '~' || c = '/'

/-- `urllib.parse.quote(s)` (default `safe='/'`). -/
def pyQuote (s : String) : String :=
  String.join (s.data.map (fun c =>
    if quoteSafe c then String.singleton c
    else String.join ((utf8Bytes c.toNat).map percentByte)))

/-- Order-preserving deduplication of the candidate list in
`_link_for_target` (`seen` set plus `ordered` list). -/
def dedupKeep : List String → List String → List String
  | [], _ => []
  | c :: cs, seen =>
    if c ∈ seen then dedupKeep cs seen else c :: dedupKeep cs (c :: seen)

/-- First candidate with a registry entry (`for key in ordered: if key in
self.page_slugs`).  The registry is an association list. -/
def firstHit (slugs : List (String × String)) : List String → Option String
  | [] => none
  | k :: ks =>
    match slugs.lookup k with
    | some v => some v
    | none => firstHit slugs ks

/-- `WikiConverter._link_for_target(target, label)`: resolve via the
registry's candidate keys or fall back to a predicted slug with the
`missing` class; an optional `#fragment` becomes a heading anchor. -/
def link_for_target (slugs : List (String × String)) (target : String)
    (label? : Option String) : String :=
  let label := label?.getD target
  let base : String :=
    if target.data.contains '#' then ⟨target.data.takeWhile (fun c => c ≠ '#')⟩
    else target
  let frag? : Option String :=
    if target.data.contains '#' then
      some ⟨(target.data.dropWhile (fun c => c ≠ '#')).tail⟩
    else none
  let norm_base := normalize_title base
  let ordered := dedupKeep
    [base, norm_base, pyReplace base "_" " ", pyReplace norm_base " " "_"] []
  let fragSuffix : String :=
    match frag? with
    | some f => if f ≠ "" then "#" ++ heading_id f else ""
    | none => ""
  match firstHit slugs ordered with
  | some slug =>
    "<a href='" ++ escape (slug ++ ".html" ++ fragSuffix) ++ "'>" ++ escape label ++ "</a>"
  | none =>
    let pred0 := stripSet ['-'] (slugStripSub (pyLower (asciiIgnore norm_base)))
    let pred := if pred0 = "" then "page" else pred0
    "<a class='missing' href='" ++ escape (pred ++ ".html" ++ fragSuffix) ++ "'>" ++
      escape label ++ "</a>"

/-- `re.search(r"href='([^']+)'", anchor)`: the first single-quoted href
value (used by `file_sub` to recover an internal link's target). -/
def hrefExtractGo : Nat → List Char → Option String
  | 0, _ => none
  | fuel + 1, cs =>
    (if "href='".data.isPrefixOf cs then
      let v := (cs.drop 6).takeWhile (fun c => c ≠ '\'')
      if v.isEmpty then none
      else
        match (cs.drop 6).dropWhile (fun c => c ≠ '\'') with
        | '\'' :: _ => some (⟨v⟩ : String)
        | _ => none
    else none) <|>
    (match cs with
     | [] => none
     | _ :: rest => hrefExtractGo fuel rest)

/-- The href search over a whole anchor string. -/
def hrefExtract (anchor : String) : Option String :=
  hrefExtractGo (anchor.data.length + 1) anchor.data

/-- Decimal digits to a natural number (Python `int` on a digit string). -/
def digitsToNat (cs : List Char) : Nat :=
  cs.foldl (fun acc c => 10 * acc + (c.toNat - '0'.toNat)) 0

/-- Parse the factor group `([0-9]*\.?[0-9]+)` of `upright_re` anchored to
the whole remaining text.  The decimal `ip.frac` is represented exactly as
the pair `(mantissa, power)` meaning `mantissa / 10 ^ power` (`float` of a
short decimal literal behaves identically under the truncations of the
source; see the header notes). -/
def parseDecScaled (cs : List Char) : Option (Nat × Nat) :=
  let ip := cs.takeWhile Char.isDigit
  match cs.dropWhile Char.isDigit with
  | [] => if ip.isEmpty then none else some (digitsToNat ip, 0)
  | '.' :: frac =>
    if !frac.isEmpty && frac.all Char.isDigit then
      some (digitsToNat (ip ++ frac), frac.length)
    else none
  | _ => none

/-- Match `upright_re` = `^upright(?::?=([0-9]*\.?[0-9]+))?$` (IGNORECASE):
`some none` for a bare `upright`, `some (some (m, k))` for a factor
`m / 10 ^ k` given as `upright=…` or `upright:=…`. -/
def uprightMatch (o : String) : Option (Option (Nat × Nat)) :=
  match dropCI "upright".data o.data with
  | none => none
  | some [] => some none
  | some rest =>
    match (if rest.head? = some ':' then rest.tail else rest) with
    | '=' :: numCs => (parseDecScaled numCs).map some
    | _ => none

/-- Match `size_re` = `^(\d+)(?:x(\d+))?px$` (IGNORECASE): explicit width
and optional height. -/
def sizeMatch (o : String) : Option (Nat × Option Nat) :=
  let cs := o.data
  let d1 := cs.takeWhile Char.isDigit
  if d1.isEmpty then none
  else
    let r := cs.dropWhile Char.isDigit
    if r.map Char.toLower = ['p', 'x'] then some (digitsToNat d1, none)
    else
      match r with
      | c :: rest =>
        if c.toLower = 'x' then
          let d2 := rest.takeWhile Char.isDigit
          if d2.isEmpty then none
          else if (rest.dropWhile Char.isDigit).map Char.toLower = ['p', 'x'] then
            some (digitsToNat d1, some (digitsToNat d2))
          else none
        else none
      | [] => none

/-- The alignment token set of `file_sub`. -/
def alignment_tokens : List String := ["left", "right", "center", "none"]

/-- The frame-mode token set of `file_sub`. -/
def frame_tokens : List String := ["thumb", "thumbnail", "frame", "frameless"]

/-- `known_flags = alignment_tokens | frame_tokens | {"upright"}`. -/
def known_flags : List String := alignment_tokens ++ frame_tokens ++ ["upright"]

/-- The mutable locals of `file_sub`'s option loop. -/
structure FileOptState where
  width : Nat
  height : Nat
  altText : Option String
  linkTarget : Option String
  classes : List String
  technical : List Nat
  lastCaptionIdx : Option Nat
  explicitSize : Bool
deriving DecidableEq

/-- The loop state before any option is processed (`width, height = 600,
400`, `classes = ["file-ref"]`). -/
def initFileOptState : FileOptState :=
  ⟨600, 400, none, none, ["file-ref"], [], none, false⟩

/-- One iteration of `file_sub`'s `for idx, opt in enumerate(opts)` loop.
Sizing uses exact arithmetic for the source's float expressions:
`int(w * 3 / 4)` is `w * 3 / 4` in `Nat` (exact quarters for every
feasible width), and `int(600 * 0.37 * (m / 10^k))` is `222 * m / 10 ^ k`
in `Nat` because `600 * 0.37` rounds to exactly `222.0` and `222 * q` is
never an integer for a regex-matchable decimal factor `q` other than
exactly representable half-integers. -/
def file_opt_step (st : FileOptState) (idxOpt : Nat × String) : FileOptState :=
  let idx := idxOpt.1
  let o := pyStrip idxOpt.2
  if o = "" then st
  else if startsWithS "alt=" (pyLower o) then
    { st with altText := some (pyStrip (strDrop 4 o)), technical := st.technical ++ [idx] }
  else if startsWithS "link=" (pyLower o) then
    { st with linkTarget := some (pyStrip (strDrop 5 o)), technical := st.technical ++ [idx] }
  else
    match sizeMatch o with
    | some (w, h?) =>
      { st with width := w, height := h?.getD (w * 3 / 4), explicitSize := true,
                technical := st.technical ++ [idx] }
    | none =>
      match uprightMatch o with
      | some f? =>
        if st.explicitSize then { st with technical := st.technical ++ [idx] }
        else
          let mk := f?.getD (1, 0)
          let w := 222 * mk.1 / 10 ^ mk.2
          { st with width := w, height := w * 3 / 4, technical := st.technical ++ [idx] }
      | none =>
        let low := pyLower o
        if low ∈ alignment_tokens then
          { st with classes := st.classes ++ ["align-" ++ low],
                    technical := st.technical ++ [idx] }
        else if low ∈ frame_tokens then
          { st with classes := st.classes ++ ["mode-" ++ low],
                    technical := st.technical ++ [idx] }
        else if low ∈ known_flags then { st with technical := st.technical ++ [idx] }
        else { st with lastCaptionIdx := some idx }

/-- `file_sub(match)` of `WikiConverter.inline` in HTML mode: `inside` is
the regex group `File:...` with its options. -/
def file_sub (slugs : List (String × String)) (inside : String) : String :=
  let parts := splitAllOn "|" inside
  let file_part := parts.headD ""
  let opts := parts.tail
  let fname0 := strDrop 5 file_part
  let filename := if fname0 = "" then "File" else fname0
  let st := opts.enum.foldl file_opt_step initFileOptState
  let caption :=
    match st.lastCaptionIdx with
    | some i => if i ∈ st.technical then "" else pyStrip ((opts.get? i).getD "")
    | none => ""
  let width := max 40 (min st.width 1600)
  let height := max 40 (min st.height 1200)
  let label_text : String := ⟨filename.data.take 60⟩
  let img_url := "https://placehold.co/" ++ toString width ++ "x" ++ toString height ++
    "?text=" ++ pyQuote label_text
  let alt_final := st.altText.getD filename
  let ltTruthy := match st.linkTarget with | some l => decide (l ≠ "") | none => false
  let isYt :=
    match st.linkTarget with
    | some lt =>
      (containsS "youtube.com" (pyLower lt) || containsS "youtu.be" (pyLower lt)) &&
        containsS "youtube" (pyLower filename)
    | none => false
  if ltTruthy && isYt && (caption == "") then
    "<a href='" ++ escape (st.linkTarget.getD "") ++ "'>YouTube</a>"
  else
    let img_html := "<img class=\"placeholder-img\" src='" ++ escape img_url ++
      "' alt='" ++ escape alt_final ++ "' loading='lazy'/>"
    let img_html :=
      match st.linkTarget with
      | some lt =>
        if lt ≠ "" then
          if !(startsWithS "http://" lt || startsWithS "https://" lt) then
            let clean := stripSet ['[', ']'] lt
            let anchor := link_for_target slugs clean (some "__PLACEHOLDER__")
            let href := (hrefExtract anchor).getD "#"
            "<a href='" ++ escape href ++ "'>" ++ img_html ++ "</a>"
          else "<a href='" ++ escape lt ++ "'>" ++ img_html ++ "</a>"
        else img_html
      | none => img_html
    let class_attr := String.intercalate " " st.classes
    "<figure class=\"" ++ escape class_attr ++ "\">" ++ img_html ++
      "<div class=\"file-name\">" ++ escape filename ++ "</div>" ++
      (if caption ≠ "" then "<figcaption>" ++ escape caption ++ "</figcaption>" else "") ++
      "</figure>"

/-- Match `FILE_LINK_ANY_RE` = `\[\[(File:[^\]]+)]]` (IGNORECASE) at the
start; group 1 (returned with its original casing) spans from `File:` to
just before `]]`. -/
def fileLinkMatchAt (cs : List Char) : Option (String × List Char) :=
  match cs with
  | '[' :: '[' :: rest =>
    match dropCI "file:".data rest with
    | some _ =>
      let inner := rest.takeWhile (fun c => c ≠ ']')
      if inner.length ≥ 6 then
        match rest.dropWhile (fun c => c ≠ ']') with
        | ']' :: ']' :: tail => some (⟨inner⟩, tail)
        | _ => none
      else none
    | none => none
  | _ => none

/-- `FILE_LINK_ANY_RE.sub(file_sub, text)`. -/
def subFileLinksGo (slugs : List (String × String)) : Nat → List Char → List Char
  | 0, cs => cs
  | _ + 1, [] => []
  | fuel + 1, c :: rest =>
    match fileLinkMatchAt (c :: rest) with
    | some (inside, tail) => (file_sub slugs inside).data ++ subFileLinksGo slugs fuel tail
    | none => c :: subFileLinksGo slugs fuel rest

/-- Match `LINK_RE` = `\[\[([^\]|]+?)(?:\|([^\]]+))?]]` at the start: the
lazy group 1 must extend to the full run of non-`]`/`|` characters before
either `]]` or a non-empty label and `]]`. -/
def linkMatchAt (cs : List Char) : Option (String × Option String × List Char) :=
  match cs with
  | '[' :: '[' :: rest =>
    let tgt := rest.takeWhile (fun c => c ≠ ']' && c ≠ '|')
    if tgt.isEmpty then none
    else
      match rest.dropWhile (fun c => c ≠ ']' && c ≠ '|') with
      | ']' :: ']' :: tail => some (⟨tgt⟩, none, tail)
      | '|' :: r2 =>
        let lab := r2.takeWhile (fun c => c ≠ ']')
        if lab.isEmpty then none
        else
          match r2.dropWhile (fun c => c ≠ ']') with
          | ']' :: ']' :: tail => some (⟨tgt⟩, some ⟨lab⟩, tail)
          | _ => none
      | _ => none
  | _ => none

/-- `link_sub(match)` of `WikiConverter.inline` in HTML mode. -/
def link_sub (slugs : List (String × String)) (target0 : String)
    (label0 : Option String) : String :=
  let target := pyStrip target0
  let label := match label0 with | some l => pyStrip l | none => target
  if startsWithS "file:" (pyLower target) then label
  else if startsWithS "http://" target || startsWithS "https://" target then
    "<a href='" ++ escape target ++ "'>" ++ escape label ++ "</a>"
  else if startsWithS "category:" (pyLower target) then
    let cat_name := afterFirst ":" target
    "<a href='" ++ escape (category_slug cat_name ++ ".html") ++ "'>" ++
      escape label ++ "</a>"
  else link_for_target slugs target (some label)

/-- `LINK_RE.sub(link_sub, text)`. -/
def subLinksGo (slugs : List (String × String)) : Nat → List Char → List Char
  | 0, cs => cs
  | _ + 1, [] => []
  | fuel + 1, c :: rest =>
    match linkMatchAt (c :: rest) with
    | some (tgt, lab, tail) => (link_sub slugs tgt lab).data ++ subLinksGo slugs fuel tail
    | none => c :: subLinksGo slugs fuel rest

/-- Match `EXTERNAL_LINK_RE` = `\[(https?://[^\s\]]+)(?:\s+([^\]]+))?]` at
the start.  After the greedy URL run, either `]` follows directly (no
label), or a whitespace run `W` and a non-`]` run `M` and `]`: the label is
`M` when non-empty, else (backtracking `\s+`) the last character of `W`
when `W` has at least two characters. -/
def extLinkMatchAt (cs : List Char) : Option (String × Option String × List Char) :=
  match cs with
  | '[' :: rest =>
    let proto? : Option (List Char) :=
      if "https://".data.isPrefixOf rest then some "https://".data
      else if "http://".data.isPrefixOf rest then some "http://".data
      else none
    match proto? with
    | none => none
    | some proto =>
      let afterProto := rest.drop proto.length
      let urlRun := afterProto.takeWhile (fun c => !isPySpace c && c ≠ ']')
      if urlRun.isEmpty then none
      else
        let url : String := ⟨proto ++ urlRun⟩
        match afterProto.dropWhile (fun c => !isPySpace c && c ≠ ']') with
        | ']' :: tail => some (url, none, tail)
        | c :: r1 =>
          if isPySpace c then
            let ws := (c :: r1).takeWhile isPySpace
            let afterWs := (c :: r1).dropWhile isPySpace
            let m := afterWs.takeWhile (fun d => d ≠ ']')
            match afterWs.dropWhile (fun d => d ≠ ']') with
            | ']' :: tail =>
              if !m.isEmpty then some (url, some ⟨m⟩, tail)
              else if ws.length ≥ 2 then some (url, some ⟨[ws.getLastD ' ']⟩, tail)
              else none
            | _ => none
          else none
        | [] => none
  | _ => none

/-- `external_sub(match)` of `WikiConverter.inline`. -/
def external_sub (url : String) (label0 : Option String) : String :=
  let label := match label0 with | some l => pyStrip l | none => url
  "<a href='" ++ escape url ++ "'>" ++ escape label ++ "</a>"

/-- `EXTERNAL_LINK_RE.sub(external_sub, text)`. -/
def subExternalGo : Nat → List Char → List Char
  | 0, cs => cs
  | _ + 1, [] => []
  | fuel + 1, c :: rest =>
    match extLinkMatchAt (c :: rest) with
    | some (url, lab, tail) => (external_sub url lab).data ++ subExternalGo fuel tail
    | none => c :: subExternalGo fuel rest

/-- Lazy scan for the closing apostrophe run of `'{n}(.*?)'{n}`: content up
to the first following run of `n` apostrophes, never crossing a newline. -/
def quoteCloseScan (n : Nat) : Nat → List Char → Option (List Char × List Char)
  | 0, _ => none
  | fuel + 1, cs =>
    if (List.replicate n '\'').isPrefixOf cs then some ([], cs.drop n)
    else
      match cs with
      | [] => none
      | c :: rest =>
        if c = '\n' then none
        else (quoteCloseScan n fuel rest).map (fun p => (c :: p.1, p.2))

/-- One of `BOLD_ITALIC_RE` / `BOLD_RE` / `ITALIC_RE` as a substitution
pass: `n` apostrophes, lazy group, `n` apostrophes, the group escaped and
wrapped in `tags` (e.g. `["strong", "em"]`). -/
def subQuotesGo (n : Nat) (openT closeT : String) : Nat → List Char → List Char
  | 0, cs => cs
  | _ + 1, [] => []
  | fuel + 1, c :: rest =>
    if (List.replicate n '\'').isPrefixOf (c :: rest) then
      match quoteCloseScan n ((c :: rest).length + 1) ((c :: rest).drop n) with
      | some (content, tail) =>
        (openT ++ escape ⟨content⟩ ++ closeT).data ++ subQuotesGo n openT closeT fuel tail
      | none => c :: subQuotesGo n openT closeT fuel rest
    else c :: subQuotesGo n openT closeT fuel rest

/-- `WikiConverter.inline(text)` in HTML mode: file embeds, then internal
links, then bracketed external links, then bold-italic, bold, italic. -/
def WikiConverter.inline (slugs : List (String × String)) (text : String) : String :=
  let t1 := subFileLinksGo slugs (text.data.length + 1) text.data
  let t2 := subLinksGo slugs (t1.length + 1) t1
  let t3 := subExternalGo (t2.length + 1) t2
  let t4 := subQuotesGo 5 "<strong><em>" "</em></strong>" (t3.length + 1) t3
  let t5 := subQuotesGo 3 "<strong>" "</strong>" (t4.length + 1) t4
  ⟨subQuotesGo 2 "<em>" "</em>" (t5.length + 1) t5⟩

/-- One table cell: text and header flag (the source's `(part, is_header)`
tuples). -/
structure CellData where
  text : String
  isHeader : Bool
deriving DecidableEq

/-- The mutable locals of the table-accumulation block in `convert`
(`header_text`, `rows`, `current_row`, `pending_text_lines`) together with
the category accumulators that `strip_categories` updates from cell
content. -/
structure TableAccState where
  headerText : String
  rows : List (List CellData)
  currentRow : List CellData
  pending : List String
  catSet : List String
  cats : List String
deriving DecidableEq

/-- `flush_pending_into_cell()` of `convert`. -/
def flushPending (st : TableAccState) : TableAccState :=
  if st.pending ≠ [] then
    let joined := pyStrip (String.intercalate " " st.pending)
    if joined ≠ "" then
      { st with pending := [], currentRow := st.currentRow ++ [⟨joined, false⟩] }
    else { st with pending := [] }
  else st

/-- One iteration of the `for tl in table_lines[1:-1]` loop. -/
def tableLineStep (st : TableAccState) (tl : String) : TableAccState :=
  let core := pyStrip tl
  if core = "" then st
  else if startsWithS "|+" core then { st with headerText := pyStrip (strDrop 2 core) }
  else if startsWithS "|-" core then
    let st := flushPending st
    if st.currentRow ≠ [] then
      { st with rows := st.rows ++ [st.currentRow], currentRow := [] }
    else st
  else if startsWithS "!" core || startsWithS "|" core then
    let st := flushPending st
    let isHeader := startsWithS "!" core
    let cell_line := pyLstrip (strDrop 1 core)
    let parts :=
      if isHeader && containsS "!!" cell_line then splitAllOn "!!" cell_line
      else if containsS "||" cell_line then splitAllOn "||" cell_line
      else [cell_line]
    parts.foldl (fun st p =>
      let part := pyStrip p
      let attrForm := containsS "|" part &&
        (match part.data with | c :: _ => decide (c ≠ '|') | [] => false)
      let part := if attrForm then pyStrip (afterFirst "|" part) else part
      let sc := strip_categories part st.catSet st.cats
      { st with currentRow := st.currentRow ++ [⟨sc.1, isHeader⟩],
                catSet := sc.2.1, cats := sc.2.2 }) st
  else { st with pending := st.pending ++ [core] }

/-- Accumulate `table_lines[1:-1]` into `(header_text, rows)` with the
final pending flush and row flush of `convert`. -/
def parseTableRows (body : List String) (catSet cats : List String) :
    String × List (List CellData) × List String × List String :=
  let st := flushPending (body.foldl tableLineStep ⟨"", [], [], [], catSet, cats⟩)
  let rows := if st.currentRow ≠ [] then st.rows ++ [st.currentRow] else st.rows
  (st.headerText, rows, st.catSet, st.cats)

/-- `max_cols`: the maximum cell count over non-empty rows (`max(col_counts)
if col_counts else 0`). -/
def table_max_cols (rows : List (List CellData)) : Nat :=
  ((rows.filter (fun r => !r.isEmpty)).map List.length).foldr Nat.max 0

/-- The `key_value_style` classification of `convert` (lines 279-281):
`max_cols == 2` and at least `max(1, int(0.6 * len(rows)))` rows have
exactly 2 cells.  Python's `int(0.6 * n)` truncates the double `0.6 * n`,
which equals `3 * n / 5` in `Nat` for every feasible row count (the double
product always lies in `[3n/5 - 1/5, 3n/5 + 1/5)`). -/
def key_value_style (rows : List (List CellData)) : Bool :=
  table_max_cols rows == 2 &&
    decide ((rows.filter (fun r => r.length == 2)).length ≥ max 1 (3 * rows.length / 5))

/-- The HTML rendering of an accumulated table: a key-value definition-list
aside, or a generic `wikitable` grid.  (Appending `header_html` directly
matches the source's conditional `append` because the empty string joins
invisibly.) -/
def renderTable (slugs : List (String × String)) (headerText : String)
    (rows : List (List CellData)) : String :=
  let header_html :=
    if headerText ≠ "" then
      "<header>" ++ WikiConverter.inline slugs headerText ++ "</header>"
    else ""
  if key_value_style rows then
    "<aside class='collapsible infobox'>" ++ header_html ++ "<dl>" ++
      String.join (rows.map (fun r =>
        match r with
        | [k, v] => "<dt>" ++ WikiConverter.inline slugs k.text ++ "</dt><dd>" ++
            WikiConverter.inline slugs v.text ++ "</dd>"
        | _ => "<dd>" ++
            String.intercalate " — " (r.map (fun c => WikiConverter.inline slugs c.text)) ++
            "</dd>")) ++
      "</dl></aside>"
  else
    "<table class='wikitable'>" ++ header_html ++
      String.join (rows.map (fun r =>
        "<tr>" ++
          String.join (r.map (fun c =>
            let tag := if c.isHeader then "th" else "td"
            "<" ++ tag ++ ">" ++ WikiConverter.inline slugs c.text ++ "</" ++ tag ++ ">")) ++
          "</tr>")) ++
      "</table>"

/-- The per-line state of `WikiConverter.convert`'s main loop.  The head of
`listStack` is the innermost open list (Python's `list_stack[-1]`). -/
structure ConvState where
  htmlLines : List String
  listStack : List Char
  categories : List String
  catSet : List String
  inCollapse : Bool
  collapseLines : List String
  inTable : Bool
  tableLines : List String
deriving DecidableEq

/-- The state at loop entry. -/
def initConvState : ConvState := ⟨[], [], [], [], false, [], false, []⟩

/-- Opening tag for a list marker. -/
def openTag (t : Char) : String := if t = '*' then "<ul>" else "<ol>"

/-- Closing tag for a list marker (`close_lists`' per-pop emission). -/
def closeTag (t : Char) : String := if t = '*' then "</ul>" else "</ol>"

/-- `close_lists(to_level)`: pop while more than `to_level` contexts are
open, emitting one closing tag per pop (innermost first); returns the
emitted tags and the remaining stack. -/
def closeListsFrom (toLevel : Nat) : List Char → List String × List Char
  | [] => ([], [])
  | t :: rest =>
    if rest.length + 1 ≤ toLevel then ([], t :: rest)
    else
      let (tags, stk) := closeListsFrom toLevel rest
      (closeTag t :: tags, stk)

/-- The list-item branch of `convert` (lines 405-422): open missing
levels, close down to the item's level, reopen on a marker-kind change,
then emit the `<li>`. -/
def listItemStep (slugs : List (String × String)) (st : ConvState)
    (markers body : String) : ConvState :=
  let level := markers.data.length
  let marker_type := markers.data.getLastD '*'
  let current_depth := st.listStack.length
  let opens := level - current_depth
  let stack1 := List.replicate opens marker_type ++ st.listStack
  let lines1 := st.htmlLines ++ List.replicate opens (openTag marker_type)
  let ls2 :=
    if level < current_depth then
      let cl := closeListsFrom level stack1
      (lines1 ++ cl.1, cl.2)
    else (lines1, stack1)
  let ls3 :=
    if level ≠ 0 ∧ ls2.2 ≠ [] ∧ ls2.2.head? ≠ some marker_type then
      let cl := closeListsFrom (level - 1) ls2.2
      (ls2.1 ++ cl.1 ++ [openTag marker_type], marker_type :: cl.2)
    else ls2
  let li := "<li>" ++ WikiConverter.inline slugs body ++ "</li>"
  { st with htmlLines := ls3.1 ++ [li], listStack := ls3.2 }

/-- One iteration of `convert`'s `for raw in lines` loop. -/
def convStep (slugs : List (String × String)) (st : ConvState) (raw : String) :
    ConvState :=
  let line := pyRstripNl raw
  if !st.inCollapse && !st.inTable && startsWithS "\x7b|" (pyLstrip line) then
    { st with inTable := true, tableLines := [line] }
  else if st.inTable then
    let tls := st.tableLines ++ [line]
    if startsWithS "|\x7d" (pyStrip line) then
      let pt := parseTableRows (tls.drop 1).dropLast st.catSet st.categories
      let cl := closeListsFrom 0 st.listStack
      { st with htmlLines := st.htmlLines ++ cl.1 ++ [renderTable slugs pt.1 pt.2.1],
                listStack := cl.2, inTable := false, tableLines := tls,
                catSet := pt.2.2.1, categories := pt.2.2.2 }
    else { st with tableLines := tls }
  else if !st.inCollapse && collapsibleOpen line then
    { st with inCollapse := true, collapseLines := [line] }
  else if st.inCollapse then
    let cls := st.collapseLines ++ [line]
    if containsS "</div>" (pyLower line) then
      let block := String.intercalate "\n" cls
      let header_html :=
        match headerSearch block with
        | some g2 => "<header>" ++ g2 ++ "</header>"
        | none => ""
      let inner : String := ⟨stripTrailingDiv (stripLeadingDiv block.data)⟩
      let aside := "<aside class='collapsible'>" ++ header_html ++
        WikiConverter.inline slugs inner ++ "</aside>"
      { st with htmlLines := st.htmlLines ++ [aside],
                inCollapse := false, collapseLines := cls }
    else { st with collapseLines := cls }
  else
    let sc := strip_categories line st.catSet st.categories
    let line' := sc.1
    let st := { st with catSet := sc.2.1, categories := sc.2.2 }
    if pyStrip line' = "" then
      let cl := closeListsFrom 0 st.listStack
      { st with htmlLines := st.htmlLines ++ cl.1 ++ [""], listStack := cl.2 }
    else
      match headingMatch line' with
      | some (k, mid) =>
        let cl := closeListsFrom 0 st.listStack
        let level := min k 6
        let content := pyStrip mid
        let h := "<h" ++ toString level ++ " id='" ++ escape (heading_id content) ++
          "'>" ++ escape content ++ "</h" ++ toString level ++ ">"
        { st with htmlLines := st.htmlLines ++ cl.1 ++ [h], listStack := cl.2 }
      | none =>
        match listItemMatch line' with
        | some (markers, body) => listItemStep slugs st markers body
        | none =>
          let cl := closeListsFrom 0 st.listStack
          let p := "<p>" ++ WikiConverter.inline slugs line' ++ "</p>"
          { st with htmlLines := st.htmlLines ++ cl.1 ++ [p], listStack := cl.2 }

/-- Python `text.split("\n")`. -/
def splitNl : List Char → List (List Char)
  | [] => [[]]
  | c :: rest =>
    let r := splitNl rest
    if c = '\n' then [] :: r
    else
      match r with
      | h :: t => (c :: h) :: t
      | [] => [[c]]

/-- The non-redirect body of `WikiConverter.convert`: template stripping,
the line loop, and the final `close_lists(0)`; returns `html_lines` (before
joining) and `categories`. -/
def convertLines (slugs : List (String × String)) (text : String) :
    List String × List String :=
  let text2 := templateStripLoop 10 text
  let lines := (splitNl text2.data).map (fun cs => (⟨cs⟩ : String))
  let final := lines.foldl (convStep slugs) initConvState
  (final.htmlLines ++ (closeListsFrom 0 final.listStack).1, final.categories)

/-- Python `text.replace("\r", "")` (removal form of `replace`). -/
def removeCR (s : String) : String := ⟨s.data.filter (fun c => c ≠ '\r')⟩

/-- `WikiConverter.convert(title, text)` in HTML mode (`title` is unused by
the source's conversion logic but kept for fidelity): carriage returns
removed, the redirect short-circuit, else the full line loop joined with
newlines. -/
def WikiConverter.convert (slugs : List (String × String)) (title text : String) :
    String × List String :=
  let text1 := removeCR text
  match redirectMatch text1 with
  | some targetRaw =>
    ("<div class='redirectbox'>Redirect to " ++
      link_for_target slugs (pyStrip targetRaw) none ++ "</div>", [])
  | none =>
    let (ls, cats) := convertLines slugs text1
    (String.intercalate "\n" ls, cats)

/-- The two-column, three-row wikitable of the spec's boundary example. -/
def tableTwoCol : String := "\x7b|\n| a || b\n|-\n| c || d\n|-\n| e || f\n|\x7d"

/-- The same table with one three-cell row (max cols 3, 2-cell ratio 2/3). -/
def tableOneWide : String := "\x7b|\n| a || b\n|-\n| c || d || e\n|-\n| e || f\n|\x7d"

/-- The same table with two three-cell rows (2-cell ratio 1/3). -/
def tableTwoWide : String := "\x7b|\n| a || b\n|-\n| c || d || e\n|-\n| e || f || g\n|\x7d"

/-- The claim's threshold: at least 60% of the rows rounded UP, minimum 1
(`max(1, ceil(0.6 * n))`; `ceil(3n/5) = (3n+4)/5` in `Nat`). -/
def claimCeilThreshold (n : Nat) : Nat := max 1 ((3 * n + 4) / 5)

/-- A three-row table with one 2-cell row and two 1-cell rows. -/
def kvCexRows : List (List CellData) :=
  [[⟨"a", false⟩], [⟨"k", false⟩, ⟨"v", false⟩], [⟨"b", false⟩]]

/-- Rounding to nearest, as the claim's "round" (half rounds up; on the
values at issue every convention of rounding-to-nearest agrees). -/
def specRound (q : ℚ) : ℤ := ⌊q + 1 / 2⌋

example : slugify "Category:Foo" [] = ("category-foo", ["category-foo"]) := by decide
example : category_slug "Foo" = "category-foo" := by decide
example : slugify "Max Headroom" [] = ("max-headroom", ["max-headroom"]) := by decide
example : (slugify "Max Headroom" ["max-headroom"]).1 = "max-headroom-2" := by decide
example : normalize_title "max_headroom" = "Max headroom" := by decide
example : normalize_title "help:page one" = "help:Page one" := by decide
example : heading_id "A -- B!" = "a-b" := by decide
example : escape "a<b>&\"'c" = "a&lt;b&gt;&amp;&quot;&#x27;c" := by decide
example : pyStrip "  x \t" = "x" := by decide

example : categoryMatchAt "[[Category:Foo]]x".data = some ("Foo", ['x']) := by decide
example : categoryMatchAt "[[category:B|sort]]b".data = some ("B", ['b']) := by decide
example : categoryMatchAt "[[Category:X|]]".data = some ("X", []) := by decide
example : (strip_categories "a[[Category:A]]b[[Category:A]]c" [] []).1 = "abc" := by decide
example : (strip_categories "a[[Category:A]]b[[Category:A]]c" [] []).2.2 = ["A"] := by decide
example : templateStripLoop 10 "x\x7b\x7bt\x7d\x7dy" = "xy" := by decide
example : templateStripLoop 10 "\x7b\x7ba\x7b\x7bb\x7d\x7d" = "\x7b\x7ba" := by decide
example : templateStripLoop 10 "\x7b\x7ba\x7db\x7d\x7d" = "\x7b\x7ba\x7db\x7d\x7d" := by decide
example : redirectMatch "#REDIRECT[[Target Page]]" = some "Target Page" := by decide
example : redirectMatch "#redirect:[[A|b]]" = some "A|b" := by decide
example : redirectMatch "  #Redirect : [[X]]" = none := by decide
example : headingMatch "== Hi == " = some (2, " Hi ") := by decide
example : headingMatch "== a == b ==" = some (2, " a == b ") := by decide
example : headingMatch "====" = none := by decide
example : headingMatch "= a=b= " = some (1, " a=b") := by decide
example : listItemMatch "** b" = some ("**", "b") := by decide
example : listItemMatch "x* b" = none := by decide
example : collapsibleOpen "<div class=\"collapsible\">" = true := by decide
example : collapsibleOpen "<div class='mw-collapsible x'>" = true := by decide
example : collapsibleOpen "<div class=\"other\">" = false := by decide
example : collapsibleOpen "<div class=\"collapsible\"" = false := by decide
example : collapsibleOpen "<DIV CLASS=\"COLLAPSIBLE\">" = true := by decide
example : headerSearch "<div><strong>Head</strong>body</div>" = some "Head" := by decide
example : headerSearch "<h3 id=\"q\">T</h3>" = some "T" := by decide
example : headerSearch "<br>no close" = none := by decide
example : headerSearch "a<B>x</B>" = some "x" := by decide

example : pyQuote "YouTube icon.png" = "YouTube%20icon.png" := by decide
example : pyQuote "Video.ogg" = "Video.ogg" := by decide
example : afterFirst ":" "Category:A:B" = "A:B" := by decide
example : splitAllOn "|" "File:a.png|thumb|x" = ["File:a.png", "thumb", "x"] := by decide
example : splitAllOn "||" "a || b" = ["a ", " b"] := by decide
example : link_for_target [("A", "a-slug")] "A#Sec One" none =
    "<a href='a-slug.html#sec-one'>A#Sec One</a>" := by decide
example : link_for_target [] "Max Headroom" (some "lbl") =
    "<a class='missing' href='max-headroom.html'>lbl</a>" := by decide
example : hrefExtract "<a href='x.html'>y</a>" = some "x.html" := by decide

example : uprightMatch "upright" = some none := by decide
example : uprightMatch "upright=0.9" = some (some (9, 1)) := by decide
example : uprightMatch "Upright:=1.5" = some (some (15, 1)) := by decide
example : uprightMatch "upright=.5" = some (some (5, 1)) := by decide
example : uprightMatch "upright:1.5" = none := by decide
example : sizeMatch "100px" = some (100, none) := by decide
example : sizeMatch "100x50px" = some (100, some 50) := by decide
example : sizeMatch "100PX" = some (100, none) := by decide
example : sizeMatch "100xpx" = none := by decide
example : 222 * 9 / 10 ^ 1 = 199 := by decide

example : WikiConverter.inline [] "plain text" = "plain text" := by decide
example : WikiConverter.inline [] "''i'' and '''b'''" = "<em>i</em> and <strong>b</strong>" := by decide
example : WikiConverter.inline [] "'''''q'''''" = "<strong><em>q</em></strong>" := by decide
example : WikiConverter.inline [] "'''x" = "'''x" := by decide
example : WikiConverter.inline [] "[https://x.com lab el]" = "<a href='https://x.com'>lab el</a>" := by decide
example : WikiConverter.inline [] "[https://x.com]" = "<a href='https://x.com'>https://x.com</a>" := by decide
example : WikiConverter.inline [] "[[A|b c]]" = "<a class='missing' href='a.html'>b c</a>" := by decide
example : WikiConverter.inline [("A", "a-pg")] "x[[A]]y" = "x<a href='a-pg.html'>A</a>y" := by decide
example : WikiConverter.inline [] "[[Category:Foo|lbl]]" = "<a href='category-foo.html'>lbl</a>" := by decide
example : WikiConverter.inline [] "[[A|]]" = "[[A|]]" := by decide

/-- C2, counterexample: the claim says the three-row table with one
three-cell row "still classifies as key-value layout", but the source
requires `max_cols == 2`, and this table's max is 3: it renders as a
generic `wikitable` grid, not as the key-value definition-list aside. -/
theorem three_col_table_not_key_value :
    WikiConverter.convert [] "T" tableOneWide =
      ("<table class='wikitable'><tr><td>a</td><td>b</td></tr><tr><td>c</td><td>d</td><td>e</td></tr><tr><td>e</td><td>f</td></tr></table>", []) ∧
    key_value_style [[⟨"a", false⟩, ⟨"b", false⟩], [⟨"c", false⟩, ⟨"d", false⟩, ⟨"e", false⟩],
      [⟨"e", false⟩, ⟨"f", false⟩]] = false ∧
    startsWithS "<aside" (WikiConverter.convert [] "T" tableOneWide).1 = false := by
  decide

/-- C2 (amended): the two-column three-row table classifies key-value and
renders as the infobox aside; the variant with one three-cell row has max
cols 3 and therefore classifies generic (the 2/3 ratio never gets tested);
the variant with two three-cell rows also classifies generic. -/
theorem table_classification_examples :
    WikiConverter.convert [] "T" tableTwoCol =
      ("<aside class='collapsible infobox'><dl><dt>a</dt><dd>b</dd><dt>c</dt><dd>d</dd><dt>e</dt><dd>f</dd></dl></aside>", []) ∧
    WikiConverter.convert [] "T" tableOneWide =
      ("<table class='wikitable'><tr><td>a</td><td>b</td></tr><tr><td>c</td><td>d</td><td>e</td></tr><tr><td>e</td><td>f</td></tr></table>", []) ∧
    WikiConverter.convert [] "T" tableTwoWide =
      ("<table class='wikitable'><tr><td>a</td><td>b</td></tr><tr><td>c</td><td>d</td><td>e</td></tr><tr><td>e</td><td>f</td><td>g</td></tr></table>", []) := by
  decide

/-- C3, counterexample: for `* a\n** b\n* c` exactly ONE `</ul>` stands
between item `b` and item `c` (closing from depth 2 back to depth 1 pops a
single context), not the two the claim asserts. -/
theorem list_close_count_counterexample :
    (convertLines [] "* a\n** b\n* c").1 =
      ["<ul>", "<li>a</li>", "<ul>", "<li>b</li>"] ++ ["</ul>"] ++ ["<li>c</li>", "</ul>"] ∧
    List.count "</ul>" ["</ul>"] ≠ 2 := by
  decide

/-- C3 (amended): the converter opens depth 2 for `b` and closes back to
depth 1 before `c`, emitting exactly one `</ul>`-equivalent close between
the two items (one per popped nesting level). -/
theorem list_nesting_single_close :
    (convertLines [] "* a\n** b\n* c").1 =
      ["<ul>", "<li>a</li>", "<ul>", "<li>b</li>"] ++ ["</ul>"] ++ ["<li>c</li>", "</ul>"] ∧
    List.count "</ul>" ["</ul>"] = 1 := by
  decide

/-- C4, counterexample: `category_slug` consults no used-slug set at all,
so the category link target written by `link_sub` (and the category
footers) can collide with a page slug: a page titled `Category:Foo` takes
the slug `category-foo`, and the category `Foo`'s link target is that very
slug.  Only the category FILE name is deduplicated (to `category-foo-2`),
so the links do not even point at the category's own file. -/
theorem category_link_target_equals_page_slug :
    (slugify "Category:Foo" []).1 = "category-foo" ∧
    category_slug "Foo" = (slugify "Category:Foo" []).1 ∧
    link_sub [] "Category:Foo" none = "<a href='category-foo.html'>Category:Foo</a>" ∧
    category_file_slug "Foo" ["category-foo"] = "category-foo-2" := by
  decide

/-- C4 (amended): only the category listing FILE name is checked against
the shared used-slug set (numeric suffix on collision); `category_slug`
itself and the link targets built from it in `link_sub` and the page
footers are never checked, so a category slug used as a link target can
equal a page slug. -/
theorem category_dedup_files_only :
    category_file_slug "Foo" ["category-foo"] = "category-foo-2" ∧
    category_file_slug "Foo" ["category-foo"] ∉ ["category-foo"] ∧
    category_file_slug "Foo" [] = "category-foo" ∧
    link_sub [("Category:Foo", "category-foo")] "Category:Foo" none =
      "<a href='category-foo.html'>Category:Foo</a>" := by
  decide

/-- C5, counterexample: `File:Video.ogg|thumb|link=https://youtu.be/xyz`
does NOT render as a plain "YouTube" link — the special case additionally
requires `"youtube"` to occur in the FILENAME (case-insensitively), and
`Video.ogg` lacks it — so the embed renders as a linked image figure. -/
theorem video_ogg_renders_figure :
    file_sub [] "File:Video.ogg|thumb|link=https://youtu.be/xyz" =
      "<figure class=\"file-ref mode-thumb\"><a href='https://youtu.be/xyz'><img class=\"placeholder-img\" src='https://placehold.co/600x400?text=Video.ogg' alt='Video.ogg' loading='lazy'/></a><div class=\"file-name\">Video.ogg</div></figure>" ∧
    file_sub [] "File:Video.ogg|thumb|link=https://youtu.be/xyz" ≠
      "<a href='https://youtu.be/xyz'>YouTube</a>" := by
  decide

/-- C5 (amended): the plain "YouTube" text link requires a YouTube link
target AND a filename containing "youtube" AND no derived caption; with
such a filename and no caption the embed is the bare link, and adding any
caption token reverts it to a figure with an image and the caption. -/
theorem youtube_plain_link_needs_youtube_filename :
    file_sub [] "File:YouTube icon.png|thumb|link=https://youtu.be/xyz" =
      "<a href='https://youtu.be/xyz'>YouTube</a>" ∧
    file_sub [] "File:YouTube icon.png|thumb|link=https://youtu.be/xyz|Watch" =
      "<figure class=\"file-ref mode-thumb\"><a href='https://youtu.be/xyz'><img class=\"placeholder-img\" src='https://placehold.co/600x400?text=YouTube%20icon.png' alt='YouTube icon.png' loading='lazy'/></a><div class=\"file-name\">YouTube icon.png</div><figcaption>Watch</figcaption></figure>" := by
  decide

/-- Every member of a list is bounded by its max-fold. -/
theorem le_foldr_max (l : List Nat) (x : Nat) (hx : x ∈ l) :
    x ≤ l.foldr Nat.max 0 := by
  induction l with
  | nil => cases hx
  | cons a t ih =>
    rcases List.mem_cons.mp hx with h | h
    · subst h; exact Nat.le_max_left _ _
    · exact le_trans (ih h) (Nat.le_max_right _ _)

/-- The max-fold is bounded by any bound on the members. -/
theorem foldr_max_le (l : List Nat) (n : Nat) (h : ∀ x ∈ l, x ≤ n) :
    l.foldr Nat.max 0 ≤ n := by
  induction l with
  | nil => exact Nat.zero_le n
  | cons a t ih =>
    exact Nat.max_le.mpr ⟨h a (List.mem_cons_self a t), ih (fun x hx => h x (List.mem_cons_of_mem a hx))⟩

/-- The max-fold is zero or a member. -/
theorem foldr_max_mem (l : List Nat) :
    l.foldr Nat.max 0 = 0 ∨ l.foldr Nat.max 0 ∈ l := by
  induction l with
  | nil => exact Or.inl rfl
  | cons a t ih =>
    simp only [List.foldr_cons]
    rcases Nat.le_total a (t.foldr Nat.max 0) with h | h
    · have hr : a.max (t.foldr Nat.max 0) = t.foldr Nat.max 0 := Nat.max_eq_right h
      rw [hr]
      rcases ih with h0 | hm
      · exact Or.inl h0
      · exact Or.inr (List.mem_cons_of_mem a hm)
    · have hl : a.max (t.foldr Nat.max 0) = a := Nat.max_eq_left h
      rw [hl]
      exact Or.inr (List.mem_cons_self a t)

/-- A max-fold equals 2 exactly when all members are at most 2 and some
member equals 2. -/
theorem foldr_max_eq_two_iff (l : List Nat) :
    l.foldr Nat.max 0 = 2 ↔ (∀ x ∈ l, x ≤ 2) ∧ 2 ∈ l := by
  constructor
  · intro h
    refine ⟨fun x hx => h ▸ le_foldr_max l x hx, ?_⟩
    rcases foldr_max_mem l with h0 | hm
    · omega
    · exact h ▸ hm
  · rintro ⟨hb, hm⟩
    exact le_antisymm (foldr_max_le l 2 hb) (le_foldr_max l 2 hm)

/-- Negated emptiness as a boolean (used by the max-cols filter). -/
theorem bnot_isEmpty_iff {α : Type} (l : List α) : (!l.isEmpty) = true ↔ l ≠ [] := by
  cases l <;> simp

/-- C1 (amended): the source classifies a table as key-value exactly when
every non-empty row has at most 2 cells, some row has exactly 2 cells
(i.e. `max_cols == 2`), and the number of 2-cell rows is at least
`max(1, int(0.6 * numRows))` — 60% rounded DOWN (Python `int`
truncation), not up as the claim states. -/
theorem key_value_style_iff (rows : List (List CellData)) :
    key_value_style rows = true ↔
      ((∀ r ∈ rows, r ≠ [] → r.length ≤ 2) ∧ (∃ r ∈ rows, r.length = 2) ∧
        (rows.filter (fun r => r.length == 2)).length ≥ max 1 (3 * rows.length / 5)) := by
  unfold key_value_style table_max_cols
  rw [Bool.and_eq_true, beq_iff_eq, decide_eq_true_eq, foldr_max_eq_two_iff]
  constructor
  · rintro ⟨⟨hb, hm⟩, hc⟩
    refine ⟨?_, ?_, hc⟩
    · intro r hr hne
      exact hb r.length (List.mem_map_of_mem List.length
        (List.mem_filter.mpr ⟨hr, (bnot_isEmpty_iff r).mpr hne⟩))
    · rcases List.mem_map.mp hm with ⟨r, hr, hlen⟩
      exact ⟨r, (List.mem_filter.mp hr).1, hlen⟩
  · rintro ⟨hb, ⟨r, hr, hlen⟩, hc⟩
    refine ⟨⟨?_, ?_⟩, hc⟩
    · intro x hx
      rcases List.mem_map.mp hx with ⟨s, hs, rfl⟩
      exact hb s (List.mem_filter.mp hs).1 ((bnot_isEmpty_iff s).mp (List.mem_filter.mp hs).2)
    · refine List.mem_map.mpr ⟨r, List.mem_filter.mpr ⟨hr, ?_⟩, hlen⟩
      exact (bnot_isEmpty_iff r).mpr (by intro h; rw [h] at hlen; exact absurd hlen (by decide))

/-- C1, counterexample: three rows `[1, 2, 1]`-cells wide.  The source
classifies it key-value (`int(0.6 * 3) = 1` two-cell row suffices), while
the claim's rounded-UP threshold `max(1, ceil(1.8)) = 2` rejects it, so
the claimed "if and only if" fails at this table. -/
theorem key_value_ceil_counterexample :
    key_value_style kvCexRows = true ∧
    ¬ (table_max_cols kvCexRows = 2 ∧
        (kvCexRows.filter (fun r => r.length == 2)).length ≥ claimCeilThreshold 3) := by
  decide

/-- Unfolding step of the collision-avoidance loop. -/
theorem slugAvoid_succ (base slug : String) (used : List String) (i fuel : Nat) :
    slugAvoid base slug used i (fuel + 1) =
      if slug ∈ used then slugAvoid base (base ++ "-" ++ toString i) used (i + 1) fuel
      else slug := rfl

/-- Appending a non-empty suffix changes a string. -/
theorem append_suffix_ne (s : String) : s ++ "-2" ≠ s := by
  intro h
  have hl := congrArg String.length h
  rw [String.length_append] at hl
  have h2 : ("-2" : String).length = 2 := rfl
  rw [h2] at hl
  omega

/-- Registering a title in an empty used-set returns the base slug. -/
theorem slugify_fresh (T : String) :
    slugify T [] = (slugify_base T, [slugify_base T]) := by
  unfold slugify
  dsimp only
  rw [show (1 : Nat) = 0 + 1 from rfl, slugAvoid_succ]
  simp

/-- Registering the same title again suffixes `-2`. -/
theorem slugify_second (T : String) :
    slugify T [slugify_base T] =
      (slugify_base T ++ "-2", [slugify_base T ++ "-2", slugify_base T]) := by
  have ht : (toString 2 : String) = "2" := rfl
  have hd : ("-" : String) ++ "2" = "-2" := rfl
  unfold slugify
  dsimp only
  rw [List.length_singleton, slugAvoid_succ]
  rw [if_pos (List.mem_singleton.mpr rfl)]
  rw [show (1 : Nat) = 0 + 1 from rfl, slugAvoid_succ, ht, String.append_assoc, hd]
  have hne : ¬ (slugify_base T ++ "-2" ∈ [slugify_base T]) := by
    rw [List.mem_singleton]
    exact append_suffix_ne (slugify_base T)
  rw [if_neg hne]

/-- C7: `slugify` is a pure function of its inputs (determinism is
definitional), repeated calls from a fresh empty used-set return the same
slug, and registering the same title twice against one shared used-set
yields the base slug and then the base slug with suffix `-2`, two distinct
slugs. -/
theorem slugify_deterministic_and_suffix (T : String) :
    slugify T [] = slugify T [] ∧
    (slugify T (slugify T []).2).1 = (slugify T []).1 ++ "-2" ∧
    (slugify T (slugify T []).2).1 ≠ (slugify T []).1 := by
  rw [slugify_fresh]
  refine ⟨rfl, ?_, ?_⟩
  · rw [slugify_second]
  · rw [slugify_second]
    exact append_suffix_ne (slugify_base T)

/-- A character whose lower case is `u` is not a digit. -/
theorem not_isDigit_of_toLower_u (c : Char) (h : c.toLower = 'u') : c.isDigit = false := by
  by_contra hb
  rw [Bool.not_eq_false] at hb
  have hd : c.val ≥ 48 ∧ c.val ≤ 57 := by
    simpa [Char.isDigit, Bool.and_eq_true, decide_eq_true_eq] using hb
  have h57 : c.toNat ≤ 57 := by
    have h2 := hd.2
    simp only [UInt32.le_def, BitVec.le_def] at h2
    exact h2
  have hcond : ¬ (c.toNat ≥ 65 ∧ c.toNat ≤ 90) := by omega
  unfold Char.toLower at h
  rw [if_neg hcond] at h
  subst h
  simp [Char.isDigit] at hb

/-- An option matched by `upright_re` starts with a `u` (up to case). -/
theorem uprightMatch_shape (o : String) (f : Option (Nat × Nat))
    (hm : uprightMatch o = some f) :
    ∃ c cs, o.data = c :: cs ∧ c.toLower = 'u' := by
  unfold uprightMatch at hm
  cases hD : o.data with
  | nil => rw [hD] at hm; cases hm
  | cons c cs =>
    rw [hD] at hm
    by_cases hcu : c.toLower = 'u'
    · exact ⟨c, cs, rfl, hcu⟩
    · exfalso
      have hnone : dropCI "upright".data (c :: cs) = none := by
        simp only [show ("upright".data : List Char) = 'u' :: "pright".data from rfl, dropCI]
        rw [show ('u'.toLower : Char) = 'u' from rfl, if_neg hcu]
      rw [hnone] at hm
      cases hm

/-- An `upright` option never matches `size_re`. -/
theorem uprightMatch_no_size (o : String) (f : Option (Nat × Nat))
    (hm : uprightMatch o = some f) : sizeMatch o = none := by
  obtain ⟨c, cs, hD, hu⟩ := uprightMatch_shape o f hm
  unfold sizeMatch
  rw [hD]
  simp [List.takeWhile_cons, not_isDigit_of_toLower_u c hu]

/-- An `upright` option is not the `alt=` option. -/
theorem uprightMatch_not_alt (o : String) (f : Option (Nat × Nat))
    (hm : uprightMatch o = some f) : startsWithS "alt=" (pyLower o) = false := by
  obtain ⟨c, cs, hD, hu⟩ := uprightMatch_shape o f hm
  unfold startsWithS pyLower
  rw [hD]
  simp [List.map_cons, hu, List.isPrefixOf]

/-- An `upright` option is not the `link=` option. -/
theorem uprightMatch_not_link (o : String) (f : Option (Nat × Nat))
    (hm : uprightMatch o = some f) : startsWithS "link=" (pyLower o) = false := by
  obtain ⟨c, cs, hD, hu⟩ := uprightMatch_shape o f hm
  unfold startsWithS pyLower
  rw [hD]
  simp [List.map_cons, hu, List.isPrefixOf]

/-- An `upright` option is not empty. -/
theorem uprightMatch_ne_empty (o : String) (f : Option (Nat × Nat))
    (hm : uprightMatch o = some f) : o ≠ "" := by
  obtain ⟨c, cs, hD, _⟩ := uprightMatch_shape o f hm
  intro h
  rw [h] at hD
  exact absurd hD (by simp)

/-- Natural division is the rational floor. -/
theorem nat_div_eq_rat_floor (a b : ℕ) : ((a / b : ℕ) : ℤ) = ⌊(a : ℚ) / (b : ℚ)⌋ := by
  have h1 : ⌊(a : ℚ) / (b : ℚ)⌋₊ = a / b := Nat.floor_div_eq_div a b
  have h0 : (0 : ℚ) ≤ (a : ℚ) / (b : ℚ) := by positivity
  rw [← h1, ← Int.floor_toNat, Int.toNat_of_nonneg (Int.floor_nonneg.mpr h0)]

/-- C6 (amended): an `upright[=factor]` option (factor `m / 10 ^ k`,
default 1) processed when no explicit size was set earlier yields
`width = int(600 * 0.37 * factor)` — TRUNCATION (the rational floor), not
rounding to nearest — and `height = int(width * 3 / 4)`, likewise
truncated. -/
theorem upright_width_truncates (st : FileOptState) (idx : Nat) (opt : String)
    (f : Option (Nat × Nat)) (hm : uprightMatch (pyStrip opt) = some f)
    (hes : st.explicitSize = false) :
    (file_opt_step st (idx, opt)).width = 222 * (f.getD (1, 0)).1 / 10 ^ (f.getD (1, 0)).2 ∧
    (file_opt_step st (idx, opt)).height = (file_opt_step st (idx, opt)).width * 3 / 4 ∧
    ((file_opt_step st (idx, opt)).width : ℤ) =
      ⌊(600 : ℚ) * (37 / 100) * (((f.getD (1, 0)).1 : ℚ) / 10 ^ (f.getD (1, 0)).2)⌋ := by
  have h1 := uprightMatch_ne_empty _ _ hm
  have h2 := uprightMatch_not_alt _ _ hm
  have h3 := uprightMatch_not_link _ _ hm
  have h4 := uprightMatch_no_size _ _ hm
  have hw : (file_opt_step st (idx, opt)).width =
      222 * (f.getD (1, 0)).1 / 10 ^ (f.getD (1, 0)).2 ∧
      (file_opt_step st (idx, opt)).height =
        222 * (f.getD (1, 0)).1 / 10 ^ (f.getD (1, 0)).2 * 3 / 4 := by
    unfold file_opt_step
    dsimp only
    rw [if_neg h1, h2, h3, h4, hm, hes]
    simp
  refine ⟨hw.1, by rw [hw.2, hw.1], ?_⟩
  rw [hw.1, nat_div_eq_rat_floor]
  have harg : (((222 * (f.getD (1, 0)).1 : ℕ)) : ℚ) / ((10 ^ (f.getD (1, 0)).2 : ℕ) : ℚ) =
      (600 : ℚ) * (37 / 100) * (((f.getD (1, 0)).1 : ℚ) / 10 ^ (f.getD (1, 0)).2) := by
    push_cast
    ring
  rw [harg]

/-- Witness for C6's amended theorem at `upright=1.5`. -/
theorem upright_width_truncates_witness :
    (file_opt_step initFileOptState (0, "upright=1.5")).width = 222 * 15 / 10 ^ 1 ∧
    (file_opt_step initFileOptState (0, "upright=1.5")).height =
      (file_opt_step initFileOptState (0, "upright=1.5")).width * 3 / 4 ∧
    ((file_opt_step initFileOptState (0, "upright=1.5")).width : ℤ) =
      ⌊(600 : ℚ) * (37 / 100) * ((15 : ℚ) / 10 ^ 1)⌋ :=
  upright_width_truncates initFileOptState 0 "upright=1.5" (some (15, 1)) (by decide) rfl

/-- C6, counterexample: at `upright=0.9` the source computes width
`int(222 * 0.9) = 199` (visible in the placeholder URL `199x149`), but
`round(600 * 0.37 * 0.9) = round(199.8) = 200`: the claim's rounding is
not what the code does. -/
theorem upright_rounding_counterexample :
    file_sub [] "File:Pic.png|upright=0.9" =
      "<figure class=\"file-ref\"><img class=\"placeholder-img\" src='https://placehold.co/199x149?text=Pic.png' alt='Pic.png' loading='lazy'/><div class=\"file-name\">Pic.png</div></figure>" ∧
    specRound ((600 : ℚ) * (37 / 100) * (9 / 10)) = 200 ∧ (199 : ℤ) ≠ 200 := by
  refine ⟨by decide, ?_, by decide⟩
  unfold specRound
  rw [show (600 : ℚ) * (37 / 100) * (9 / 10) + 1 / 2 = 2003 / 10 by norm_num]
  rw [Int.floor_eq_iff]
  constructor <;> norm_num

/-- C8: a redirect directive matched at the very start of the page text
short-circuits `convert`: the whole page is exactly one redirect-notice
block and the category list is empty, whatever the rest of the text
contains. -/
theorem redirect_short_circuit (slugs : List (String × String))
    (title text target : String)
    (h : redirectMatch (removeCR text) = some target) :
    WikiConverter.convert slugs title text =
      ("<div class='redirectbox'>Redirect to " ++
        link_for_target slugs (pyStrip target) none ++ "</div>", []) := by
  unfold WikiConverter.convert
  dsimp only
  rw [h]

/-- Witness for C8: a concrete redirect page whose body contains a later
category link still yields one block and no categories. -/
theorem redirect_short_circuit_witness :
    WikiConverter.convert [] "T" "#REDIRECT[[Target Page]]\n[[Category:Later]]" =
      ("<div class='redirectbox'>Redirect to <a class='missing' href='target-page.html'>Target Page</a></div>", []) := by
  rw [redirect_short_circuit [] "T" "#REDIRECT[[Target Page]]\n[[Category:Later]]"
    "Target Page" (by decide)]
  decide

/-- C9: while a collapsible container run is open (and no table run is),
consuming a line never changes the recorded categories or the seen-set:
category stripping is applied only to normal-mode lines and to table cell
content, never to lines accumulated inside a collapsible block. -/
theorem collapse_lines_record_no_categories (slugs : List (String × String))
    (st : ConvState) (raw : String) (hc : st.inCollapse = true)
    (ht : st.inTable = false) :
    (convStep slugs st raw).categories = st.categories ∧
    (convStep slugs st raw).catSet = st.catSet := by
  unfold convStep
  rw [hc, ht]
  simp only [Bool.not_true, Bool.false_and, Bool.and_false, if_false, ite_false,
    Bool.false_eq_true, if_true, ite_true]
  split <;> simp

/-- Witness for C9: a category link on a line inside an open collapsible
run leaves the (empty) category accumulators untouched. -/
theorem collapse_lines_record_no_categories_witness :
    (convStep [] ⟨[], [], [], [], true, ["<div class=\"collapsible\">"], false, []⟩
      "[[Category:Secret]]").categories = [] ∧
    (convStep [] ⟨[], [], [], [], true, ["<div class=\"collapsible\">"], false, []⟩
      "[[Category:Secret]]").catSet = [] :=
  collapse_lines_record_no_categories []
    ⟨[], [], [], [], true, ["<div class=\"collapsible\">"], false, []⟩
    "[[Category:Secret]]" rfl rfl

/-- Membership survives a left strip when the character fails the
predicate. -/
theorem mem_lstripList_of_not (p : Char → Bool) (l : List Char) (c : Char)
    (hc : c ∈ l) (hp : p c = false) : c ∈ lstripList p l := by
  induction l with
  | nil => cases hc
  | cons x xs ih =>
    rcases List.mem_cons.mp hc with h | h
    · subst h
      unfold lstripList
      rw [hp]
      simp
    · by_cases hx : p x = true
      · unfold lstripList
        rw [hx]
        exact (if_pos rfl) ▸ ih h
      · unfold lstripList
        rw [Bool.not_eq_true] at hx
        rw [hx]
        simp [List.mem_cons_of_mem x h]

/-- Membership in a left-stripped list is membership. -/
theorem mem_of_mem_lstripList (p : Char → Bool) (l : List Char) (c : Char)
    (h : c ∈ lstripList p l) : c ∈ l := by
  induction l with
  | nil => exact h
  | cons x xs ih =>
    unfold lstripList at h
    by_cases hx : p x = true
    · rw [hx] at h
      exact List.mem_cons_of_mem x (ih (by simpa using h))
    · rw [Bool.not_eq_true] at hx
      rw [hx] at h
      simpa using h

/-- Membership in a right-stripped list is membership. -/
theorem mem_of_mem_rstripList (p : Char → Bool) (l : List Char) (c : Char)
    (h : c ∈ rstripList p l) : c ∈ l := by
  unfold rstripList at h
  have h1 : c ∈ lstripList p l.reverse := List.mem_reverse.mp h
  exact List.mem_reverse.mp (mem_of_mem_lstripList p l.reverse c h1)

/-- A fully left-stripped list had only predicate-true characters. -/
theorem all_of_lstripList_eq_nil (p : Char → Bool) (l : List Char)
    (h : lstripList p l = []) : ∀ c ∈ l, p c = true := by
  induction l with
  | nil => intro c hc; cases hc
  | cons x xs ih =>
    unfold lstripList at h
    by_cases hx : p x = true
    · rw [hx] at h
      intro c hc
      rcases List.mem_cons.mp hc with hcx | hcs
      · subst hcx; exact hx
      · exact ih (by simpa using h) c hcs
    · rw [Bool.not_eq_true] at hx
      rw [hx] at h
      simp at h

/-- A fully right-stripped list had only predicate-true characters. -/
theorem all_of_rstripList_eq_nil (p : Char → Bool) (l : List Char)
    (h : rstripList p l = []) : ∀ c ∈ l, p c = true := by
  unfold rstripList at h
  have h2 : lstripList p l.reverse = [] := by
    have := congrArg List.reverse h
    simpa using this
  intro c hc
  exact all_of_lstripList_eq_nil p l.reverse h2 c (List.mem_reverse.mpr hc)

/-- A line that the heading pattern matches is not blank: its stripped
form still contains the leading `=`. -/
theorem headingMatch_not_blank (s : String) (km : Nat × String)
    (h : headingMatch s = some km) : pyStrip s ≠ "" := by
  have heq : '=' ∈ rstripList isPySpace s.data := by
    unfold headingMatch at h
    by_cases hk : ((rstripList isPySpace s.data).takeWhile (fun c => c = '=')).length = 0
    · rw [if_pos hk] at h; cases h
    · cases hT : rstripList isPySpace s.data with
      | nil => rw [hT] at hk; simp at hk
      | cons c t' =>
        rw [hT] at hk
        by_cases hc : c = '='
        · exact List.mem_cons.mpr (Or.inl hc.symm)
        · exfalso
          apply hk
          simp [List.takeWhile_cons, hc]
  have hmem : '=' ∈ s.data := mem_of_mem_rstripList _ _ _ heq
  intro hps
  have hdata : rstripList isPySpace (lstripList isPySpace s.data) = [] :=
    congrArg String.data hps
  have hlmem : '=' ∈ lstripList isPySpace s.data :=
    mem_lstripList_of_not _ _ _ hmem (by decide)
  have hall := all_of_rstripList_eq_nil _ _ hdata '=' hlmem
  exact absurd hall (by decide)

/-- C10: a line matching the heading pattern in normal mode is emitted
with its raw (category-stripped) text HTML-escaped verbatim — the body is
`escape content`, never `inline content` — unlike paragraph and list-item
text, which go through the inline transformer. -/
theorem heading_text_escaped_verbatim (slugs : List (String × String))
    (st : ConvState) (raw : String) (k : Nat) (mid : String)
    (hc : st.inCollapse = false) (ht : st.inTable = false)
    (hnt : startsWithS "\x7b|" (pyLstrip (pyRstripNl raw)) = false)
    (hno : collapsibleOpen (pyRstripNl raw) = false)
    (hm : headingMatch
      (strip_categories (pyRstripNl raw) st.catSet st.categories).1 = some (k, mid)) :
    (convStep slugs st raw).htmlLines =
      st.htmlLines ++ (closeListsFrom 0 st.listStack).1 ++
        ["<h" ++ toString (min k 6) ++ " id='" ++ escape (heading_id (pyStrip mid)) ++
          "'>" ++ escape (pyStrip mid) ++ "</h" ++ toString (min k 6) ++ ">"] := by
  have hblank := headingMatch_not_blank _ _ hm
  unfold convStep
  rw [hc, ht]
  dsimp only
  rw [hnt, hno]
  simp only [Bool.not_false, Bool.true_and, Bool.and_false, Bool.false_and,
    Bool.and_true, Bool.false_eq_true, if_false, ite_false, if_true, ite_true]
  rw [if_neg hblank, hm]

/-- Witness for C10: a heading containing quote markup is emitted escaped
(`&#x27;`), not transformed into emphasis tags. -/
theorem heading_text_escaped_verbatim_witness :
    (convStep [] initConvState "== It's ''fancy'' ==").htmlLines =
      ([] : List String) ++ (closeListsFrom 0 []).1 ++
        ["<h" ++ toString (min 2 6) ++ " id='" ++
          escape (heading_id (pyStrip " It's ''fancy'' ")) ++ "'>" ++
          escape (pyStrip " It's ''fancy'' ") ++ "</h" ++ toString (min 2 6) ++ ">"] :=
  heading_text_escaped_verbatim [] initConvState "== It's ''fancy'' ==" 2 " It's ''fancy'' "
    rfl rfl (by decide) (by decide) (by decide)

